import Mathlib

/-!
Shallow embedding of the DungeonManager LFG queue system
(src/dungeonManager.cpp and src/dungeonManagerProducer.cpp).

The two source files define the same class; the producer variant adds the
field total_players_added and the methods addPlayersToQueue and
playerProducer, and is otherwise identical on the functions modelled here
(canFormParty, formParty, dungeonInstance).  The embedding therefore
follows the producer variant, which is a superset of the other file.

C++ `int` fields are modelled as `Int` (no wraparound is relied on by the
program).  Console output is not modelled; condition-variable broadcasts
(cv.notify_all) are modelled explicitly as an event list returned by each
operation, because several claims are about which operations broadcast.
-/

namespace DungeonManager

/-- A synchronization side effect of an operation.  The only one the code
performs inside the modelled operations is `cv.notify_all()`. -/
inductive Event where
  | notifyAll
deriving Repr, DecidableEq

/-- The mutable state of a `DungeonManager` object
(fields at src/dungeonManagerProducer.cpp lines 16-30). -/
structure DungeonState where
  tank_queue : Int
  healer_queue : Int
  dps_queue : Int
  dungeon_count : Nat
  dungeon_active : List Bool
  parties_served : List Int
  total_time_served : List Int
  total_parties_formed : Int
  total_players_added : Int
  shutdown : Bool
deriving Repr, DecidableEq

/-- The constructor `DungeonManager(int n, int t, int h, int d)`
(src/dungeonManagerProducer.cpp lines 33-38): per-instance vectors of
length n initialised to false / 0, atomics initialised to 0, shutdown
initialised to false. -/
def mkDungeonManager (n : Nat) (t h d : Int) : DungeonState :=
  { tank_queue := t
    healer_queue := h
    dps_queue := d
    dungeon_count := n
    dungeon_active := List.replicate n false
    parties_served := List.replicate n 0
    total_time_served := List.replicate n 0
    total_parties_formed := 0
    total_players_added := 0
    shutdown := false }

/-- `canFormParty` (src/dungeonManagerProducer.cpp lines 40-42):
`tank_queue >= 1 && healer_queue >= 1 && dps_queue >= 3`. -/
def canFormParty (s : DungeonState) : Bool :=
  decide (s.tank_queue ≥ 1) && decide (s.healer_queue ≥ 1) && decide (s.dps_queue ≥ 3)

/-- `formParty` (src/dungeonManagerProducer.cpp lines 44-49): decrements
tank_queue by 1, healer_queue by 1, dps_queue by 3, increments
total_parties_formed.  The body contains no `cv.notify_all()`, hence the
empty event list. -/
def formParty (s : DungeonState) : DungeonState × List Event :=
  ({ s with
      tank_queue := s.tank_queue - 1
      healer_queue := s.healer_queue - 1
      dps_queue := s.dps_queue - 3
      total_parties_formed := s.total_parties_formed + 1 },
   [])

/-- `addPlayersToQueue` (src/dungeonManagerProducer.cpp lines 51-61): adds
the three arguments to the three queues, adds their sum to
total_players_added, then calls `cv.notify_all()`. -/
def addPlayersToQueue (s : DungeonState) (tanks healers dps : Int) : DungeonState × List Event :=
  ({ s with
      tank_queue := s.tank_queue + tanks
      healer_queue := s.healer_queue + healers
      dps_queue := s.dps_queue + dps
      total_players_added := s.total_players_added + (tanks + healers + dps) },
   [Event.notifyAll])

/-- The withdrawal critical section of the worker loop
(src/dungeonManagerProducer.cpp lines 95-97): `formParty()`, then
`dungeon_active[instance_id] = true`, then `parties_served[instance_id]++`.
No broadcast happens before the lock is released at line 102. -/
def workerBeginParty (s : DungeonState) (instance_id : Nat) : DungeonState × List Event :=
  let s1 := (formParty s).1
  ({ s1 with
      dungeon_active := s1.dungeon_active.set instance_id true
      parties_served := s1.parties_served.set instance_id
        (s1.parties_served.getD instance_id 0 + 1) },
   [])

/-- The busy-completion critical section of the worker loop
(src/dungeonManagerProducer.cpp lines 107-114): re-acquire the lock,
`total_time_served[instance_id] += dungeon_time`,
`dungeon_active[instance_id] = false`, then `cv.notify_all()`. -/
def workerFinishParty (s : DungeonState) (instance_id : Nat) (dungeon_time : Int) :
    DungeonState × List Event :=
  ({ s with
      total_time_served := s.total_time_served.set instance_id
        (s.total_time_served.getD instance_id 0 + dungeon_time)
      dungeon_active := s.dungeon_active.set instance_id false },
   [Event.notifyAll])

/-- Outcome of one evaluation of the worker loop body after the
condition-variable wait returns. -/
inductive IterResult where
  | stopped
  | started (s1 : DungeonState)
  | waitAgain
deriving Repr, DecidableEq

/-- The decision structure of the worker loop body
(src/dungeonManagerProducer.cpp lines 90-96): after the wait at lines
86-88 returns, `if (shutdown && !canFormParty()) break;` then
`if (canFormParty())` form the party and become busy, else loop back to
the wait. -/
def workerIterate (s : DungeonState) (instance_id : Nat) : IterResult :=
  if s.shutdown && !canFormParty s then .stopped
  else if canFormParty s then .started (workerBeginParty s instance_id).1
  else .waitAgain

/-- The producer loop stop test (src/dungeonManagerProducer.cpp lines
126-132): stop exactly when the elapsed wall-clock seconds reach
`max_runtime_seconds`.  The object state `s` is in scope in the loop body
but the test reads nothing from it (in particular not `shutdown`). -/
def producerShouldStop (s : DungeonState) (elapsed max_runtime_seconds : Int) : Bool :=
  decide (elapsed ≥ max_runtime_seconds)

/-- The role-assignment loop of a producer tick
(src/dungeonManagerProducer.cpp lines 134-146): each drawn role value
increments exactly one of the three per-category counts (0 = tank,
1 = healer, 2 = dps; any other value would increment none, but the
distribution is over 0..2). -/
def rolesToCounts : List Nat → Int × Int × Int
  | [] => (0, 0, 0)
  | role :: rest =>
    let c := rolesToCounts rest
    if role = 0 then (c.1 + 1, c.2.1, c.2.2)
    else if role = 1 then (c.1, c.2.1 + 1, c.2.2)
    else if role = 2 then (c.1, c.2.1, c.2.2 + 1)
    else c

/-- One producer tick (src/dungeonManagerProducer.cpp lines 134-151):
draw `players_to_add` roles (the list `roles`, one entry per drawn
player), convert them to per-category counts, and make a single
`addPlayersToQueue` call under the lock. -/
def producerTick (s : DungeonState) (roles : List Nat) : DungeonState × List Event :=
  let c := rolesToCounts roles
  addPlayersToQueue s c.1 c.2.1 c.2.2

/-- A pool mutation, for reasoning about interleaved histories: either one
guarded party formation by some worker, or one producer addition. -/
inductive Op where
  | form
  | add (tanks healers dps : Int)
deriving Repr, DecidableEq

/-- State effect of one operation on the shared pool. -/
def applyOp (s : DungeonState) : Op → DungeonState
  | .form => (formParty s).1
  | .add t h d => (addPlayersToQueue s t h d).1

/-- State after a sequence of operations. -/
def applyOps (s : DungeonState) (ops : List Op) : DungeonState :=
  ops.foldl applyOp s

/-- An operation is legal in a state when it is performed the way the
program performs it: `formParty` only after `canFormParty` succeeded in
the same critical section (src/dungeonManagerProducer.cpp line 94), and
additions with non-negative per-category amounts (the producer only ever
adds counts of drawn players). -/
def legalOp (s : DungeonState) : Op → Bool
  | .form => canFormParty s
  | .add t h d => decide (0 ≤ t) && decide (0 ≤ h) && decide (0 ≤ d)

/-- Every operation of the sequence is legal in the state it executes in. -/
def legalTrace : DungeonState → List Op → Bool
  | _, [] => true
  | s, op :: rest => legalOp s op && legalTrace (applyOp s op) rest

/-- Total amount added to the tank category by a sequence of operations. -/
def addedTanks : List Op → Int
  | [] => 0
  | .form :: rest => addedTanks rest
  | .add t _ _ :: rest => t + addedTanks rest

/-- Total amount added to the healer category by a sequence of operations. -/
def addedHealers : List Op → Int
  | [] => 0
  | .form :: rest => addedHealers rest
  | .add _ h _ :: rest => h + addedHealers rest

/-- Total amount added to the dps category by a sequence of operations. -/
def addedDps : List Op → Int
  | [] => 0
  | .form :: rest => addedDps rest
  | .add _ _ d :: rest => d + addedDps rest

/-- Identity of a random generator instance in the program.  The class
has exactly one generator field, `std::mt19937 gen`
(src/dungeonManagerProducer.cpp line 26). -/
inductive GenId where
  | memberGen
deriving Repr, DecidableEq

/-- A concurrently running loop of the program. -/
inductive TaskId where
  | workerTask (i : Nat)
  | producerTask
deriving Repr, DecidableEq

/-- A place in the code where a random draw happens: which task performs
it, which generator instance it reads, and whether the mutex is held
there. -/
structure DrawSite where
  task : TaskId
  source : GenId
  mutexHeld : Bool
deriving Repr, DecidableEq

/-- The duration draw `time_dist(gen)` of worker `i`
(src/dungeonManagerProducer.cpp line 104): it reads the shared member
`gen` and runs after `lock.unlock()` at line 102, so the mutex is not
held. -/
def workerTimeDrawSite (i : Nat) : DrawSite :=
  { task := .workerTask i, source := .memberGen, mutexHeld := false }

/-- The headcount draw `count_dist(gen)` of the producer
(src/dungeonManagerProducer.cpp line 138): it reads the shared member
`gen` outside the `lock_guard` block at lines 148-151. -/
def producerCountDrawSite : DrawSite :=
  { task := .producerTask, source := .memberGen, mutexHeld := false }

/-- The role draw `role_dist(gen)` of the producer
(src/dungeonManagerProducer.cpp line 140): it reads the shared member
`gen` outside the `lock_guard` block at lines 148-151. -/
def producerRoleDrawSite : DrawSite :=
  { task := .producerTask, source := .memberGen, mutexHeld := false }

/-- Concrete viable state used as an explicit input in counterexamples. -/
def viableState : DungeonState := mkDungeonManager 2 3 3 9

/-- Concrete viable state with the shutdown flag set, as after a shutdown
request that arrives while a bundle is still formable. -/
def drainState : DungeonState :=
  { mkDungeonManager 1 2 2 6 with shutdown := true }

/- ------------------------------------------------------------------ -/
/- Helper lemmas (shared; not themselves claim theorems).             -/
/- ------------------------------------------------------------------ -/

theorem canFormParty_spec (s : DungeonState) :
    canFormParty s = true ↔ 1 ≤ s.tank_queue ∧ 1 ≤ s.healer_queue ∧ 3 ≤ s.dps_queue := by
  simp [canFormParty, and_assoc]

theorem applyOps_nil (s : DungeonState) : applyOps s [] = s := rfl

theorem applyOps_cons (s : DungeonState) (op : Op) (rest : List Op) :
    applyOps s (op :: rest) = applyOps (applyOp s op) rest := rfl

theorem legalTrace_cons (s : DungeonState) (op : Op) (rest : List Op) :
    legalTrace s (op :: rest) = (legalOp s op && legalTrace (applyOp s op) rest) := rfl

theorem legalTrace_append_left (l1 l2 : List Op) (s : DungeonState)
    (h : legalTrace s (l1 ++ l2) = true) : legalTrace s l1 = true := by
  induction l1 generalizing s with
  | nil => rfl
  | cons op rest ih =>
    rw [List.cons_append, legalTrace_cons, Bool.and_eq_true] at h
    rw [legalTrace_cons, Bool.and_eq_true]
    exact ⟨h.1, ih _ h.2⟩

theorem nonneg_applyOps (ops : List Op) (s : DungeonState)
    (h0 : 0 ≤ s.tank_queue ∧ 0 ≤ s.healer_queue ∧ 0 ≤ s.dps_queue)
    (hleg : legalTrace s ops = true) :
    0 ≤ (applyOps s ops).tank_queue ∧ 0 ≤ (applyOps s ops).healer_queue ∧
      0 ≤ (applyOps s ops).dps_queue := by
  induction ops generalizing s with
  | nil => exact h0
  | cons op rest ih =>
    rw [legalTrace_cons, Bool.and_eq_true] at hleg
    rw [applyOps_cons]
    refine ih (applyOp s op) ?_ hleg.2
    obtain ⟨ht, hh, hd⟩ := h0
    cases op with
    | form =>
      obtain ⟨h1, h2, h3⟩ := (canFormParty_spec s).mp hleg.1
      simp only [applyOp, formParty]
      refine ⟨?_, ?_, ?_⟩ <;> omega
    | add t h d =>
      have hop := hleg.1
      simp only [legalOp, Bool.and_eq_true, decide_eq_true_eq] at hop
      simp only [applyOp, addPlayersToQueue]
      refine ⟨?_, ?_, ?_⟩ <;> omega

theorem conservation_applyOps (ops : List Op) (s : DungeonState) :
    (applyOps s ops).total_parties_formed + (applyOps s ops).tank_queue
        = s.total_parties_formed + s.tank_queue + addedTanks ops ∧
    (applyOps s ops).total_parties_formed + (applyOps s ops).healer_queue
        = s.total_parties_formed + s.healer_queue + addedHealers ops ∧
    (applyOps s ops).total_parties_formed * 3 + (applyOps s ops).dps_queue
        = s.total_parties_formed * 3 + s.dps_queue + addedDps ops := by
  induction ops generalizing s with
  | nil =>
    simp [applyOps_nil, addedTanks, addedHealers, addedDps]
  | cons op rest ih =>
    rw [applyOps_cons]
    obtain ⟨i1, i2, i3⟩ := ih (applyOp s op)
    cases op with
    | form =>
      have e1 : (applyOp s Op.form).total_parties_formed = s.total_parties_formed + 1 := rfl
      have e2 : (applyOp s Op.form).tank_queue = s.tank_queue - 1 := rfl
      have e3 : (applyOp s Op.form).healer_queue = s.healer_queue - 1 := rfl
      have e4 : (applyOp s Op.form).dps_queue = s.dps_queue - 3 := rfl
      simp only [addedTanks, addedHealers, addedDps]
      refine ⟨?_, ?_, ?_⟩ <;> omega
    | add t h d =>
      have e1 : (applyOp s (Op.add t h d)).total_parties_formed = s.total_parties_formed := rfl
      have e2 : (applyOp s (Op.add t h d)).tank_queue = s.tank_queue + t := rfl
      have e3 : (applyOp s (Op.add t h d)).healer_queue = s.healer_queue + h := rfl
      have e4 : (applyOp s (Op.add t h d)).dps_queue = s.dps_queue + d := rfl
      simp only [addedTanks, addedHealers, addedDps]
      refine ⟨?_, ?_, ?_⟩ <;> omega

theorem rolesToCounts_sum (roles : List Nat) (hroles : ∀ r ∈ roles, r ≤ 2) :
    (rolesToCounts roles).1 + (rolesToCounts roles).2.1 + (rolesToCounts roles).2.2
      = (roles.length : Int) := by
  induction roles with
  | nil => rfl
  | cons r rest ih =>
    have hr : r ≤ 2 := hroles r (List.mem_cons_self r rest)
    have hsum := ih (fun x hx => hroles x (List.mem_cons_of_mem r hx))
    interval_cases r <;>
      simp only [rolesToCounts, List.length_cons] <;> push_cast <;> omega

/- ------------------------------------------------------------------ -/
/- Claim theorems.                                                    -/
/- ------------------------------------------------------------------ -/

/-- Claim C1: in every state satisfying the viability precondition,
`formParty` decrements the tank count by exactly 1, the healer count by
exactly 1, the dps count by exactly 3, and increments
`total_parties_formed` by exactly 1. -/
theorem formParty_withdraws_fixed_bundle (s : DungeonState) (hv : canFormParty s = true) :
    (formParty s).1.tank_queue = s.tank_queue - 1 ∧
    (formParty s).1.healer_queue = s.healer_queue - 1 ∧
    (formParty s).1.dps_queue = s.dps_queue - 3 ∧
    (formParty s).1.total_parties_formed = s.total_parties_formed + 1 :=
  ⟨rfl, rfl, rfl, rfl⟩

/-- Witness for C1 at the concrete state `mkDungeonManager 2 1 1 3`. -/
theorem formParty_withdraws_fixed_bundle_witness :
    (formParty (mkDungeonManager 2 1 1 3)).1.tank_queue
        = (mkDungeonManager 2 1 1 3).tank_queue - 1 ∧
    (formParty (mkDungeonManager 2 1 1 3)).1.healer_queue
        = (mkDungeonManager 2 1 1 3).healer_queue - 1 ∧
    (formParty (mkDungeonManager 2 1 1 3)).1.dps_queue
        = (mkDungeonManager 2 1 1 3).dps_queue - 3 ∧
    (formParty (mkDungeonManager 2 1 1 3)).1.total_parties_formed
        = (mkDungeonManager 2 1 1 3).total_parties_formed + 1 :=
  formParty_withdraws_fixed_bundle (mkDungeonManager 2 1 1 3) (by decide)

/-- Claim C2: `canFormParty` returns true iff the tank count is at least
1, the healer count is at least 1 and the dps count is at least 3. -/
theorem canFormParty_iff (s : DungeonState) :
    canFormParty s = true ↔
      s.tank_queue ≥ 1 ∧ s.healer_queue ≥ 1 ∧ s.dps_queue ≥ 3 :=
  canFormParty_spec s

/-- Claim C3: along any interleaved sequence of operations in which each
`formParty` is performed only in a viable state and each
`addPlayersToQueue` gets non-negative arguments, starting from
non-negative counts, the three category counters stay non-negative after
every operation (i.e. after every prefix of the trace). -/
theorem counters_stay_nonneg (s : DungeonState) (pre suf : List Op)
    (h0 : 0 ≤ s.tank_queue ∧ 0 ≤ s.healer_queue ∧ 0 ≤ s.dps_queue)
    (hleg : legalTrace s (pre ++ suf) = true) :
    0 ≤ (applyOps s pre).tank_queue ∧ 0 ≤ (applyOps s pre).healer_queue ∧
      0 ≤ (applyOps s pre).dps_queue :=
  nonneg_applyOps pre s h0 (legalTrace_append_left pre suf s hleg)

/-- Witness for C3: the trace form-then-add from initial counts (1,1,3),
observed after the form. -/
theorem counters_stay_nonneg_witness :
    0 ≤ (applyOps (mkDungeonManager 1 1 1 3) [Op.form]).tank_queue ∧
    0 ≤ (applyOps (mkDungeonManager 1 1 1 3) [Op.form]).healer_queue ∧
    0 ≤ (applyOps (mkDungeonManager 1 1 1 3) [Op.form]).dps_queue :=
  counters_stay_nonneg (mkDungeonManager 1 1 1 3) [Op.form] [Op.add 1 1 3]
    (by decide) (by decide)

/-- Claim C4: for every state reachable from the constructor state by a
legal trace, per category, total_parties_formed times the per-bundle
requirement (1, 1, 3) plus the remaining count equals the initial count
plus everything added to that category. -/
theorem conservation_per_category (n : Nat) (t h d : Int) (ops : List Op)
    (hnn : 0 ≤ t ∧ 0 ≤ h ∧ 0 ≤ d)
    (hleg : legalTrace (mkDungeonManager n t h d) ops = true) :
    (applyOps (mkDungeonManager n t h d) ops).total_parties_formed * 1 +
        (applyOps (mkDungeonManager n t h d) ops).tank_queue = t + addedTanks ops ∧
    (applyOps (mkDungeonManager n t h d) ops).total_parties_formed * 1 +
        (applyOps (mkDungeonManager n t h d) ops).healer_queue = h + addedHealers ops ∧
    (applyOps (mkDungeonManager n t h d) ops).total_parties_formed * 3 +
        (applyOps (mkDungeonManager n t h d) ops).dps_queue = d + addedDps ops := by
  obtain ⟨i1, i2, i3⟩ := conservation_applyOps ops (mkDungeonManager n t h d)
  have e0 : (mkDungeonManager n t h d).total_parties_formed = 0 := rfl
  have e1 : (mkDungeonManager n t h d).tank_queue = t := rfl
  have e2 : (mkDungeonManager n t h d).healer_queue = h := rfl
  have e3 : (mkDungeonManager n t h d).dps_queue = d := rfl
  refine ⟨?_, ?_, ?_⟩ <;> omega

/-- Witness for C4: initial counts (2,2,6), trace form, add (1,0,2),
form. -/
theorem conservation_per_category_witness :
    (applyOps (mkDungeonManager 1 2 2 6) [Op.form, Op.add 1 0 2, Op.form]).total_parties_formed * 1 +
        (applyOps (mkDungeonManager 1 2 2 6) [Op.form, Op.add 1 0 2, Op.form]).tank_queue
        = 2 + addedTanks [Op.form, Op.add 1 0 2, Op.form] ∧
    (applyOps (mkDungeonManager 1 2 2 6) [Op.form, Op.add 1 0 2, Op.form]).total_parties_formed * 1 +
        (applyOps (mkDungeonManager 1 2 2 6) [Op.form, Op.add 1 0 2, Op.form]).healer_queue
        = 2 + addedHealers [Op.form, Op.add 1 0 2, Op.form] ∧
    (applyOps (mkDungeonManager 1 2 2 6) [Op.form, Op.add 1 0 2, Op.form]).total_parties_formed * 3 +
        (applyOps (mkDungeonManager 1 2 2 6) [Op.form, Op.add 1 0 2, Op.form]).dps_queue
        = 6 + addedDps [Op.form, Op.add 1 0 2, Op.form] :=
  conservation_per_category 1 2 2 6 [Op.form, Op.add 1 0 2, Op.form]
    (by decide) (by decide)

/-- Claim C5: after the wait returns, the worker loop exits (reaches its
terminal state) exactly when the shutdown flag is set and the viability
predicate is false at that evaluation; if shutdown is set but a bundle is
viable, the iteration still withdraws the bundle and starts processing
it. -/
theorem worker_stops_iff_shutdown_not_viable (s : DungeonState) (i : Nat) :
    (workerIterate s i = IterResult.stopped ↔
      s.shutdown = true ∧ canFormParty s = false) ∧
    (s.shutdown = true ∧ canFormParty s = true →
      workerIterate s i = IterResult.started (workerBeginParty s i).1) := by
  constructor
  · cases hs : s.shutdown <;> cases hc : canFormParty s <;>
      simp [workerIterate, hs, hc]
  · rintro ⟨h1, h2⟩
    simp [workerIterate, h1, h2]

/-- Witness for C5 at the concrete drained-but-viable state `drainState`
(shutdown already set, one bundle still formable): the worker starts
processing rather than stopping. -/
theorem worker_stops_iff_shutdown_not_viable_witness :
    workerIterate drainState 0 = IterResult.started (workerBeginParty drainState 0).1 :=
  (worker_stops_iff_shutdown_not_viable drainState 0).2 (by decide)

/-- Counterexample for C6: at the concrete viable state `viableState` the
withdraw succeeds, yet the withdraw operation itself performs no
broadcast: the event list of `formParty` does not contain `notifyAll`
(the body of formParty, src/dungeonManagerProducer.cpp lines 44-49,
contains no cv.notify_all call). -/
theorem formParty_no_broadcast_counterexample :
    canFormParty viableState = true ∧
    Event.notifyAll ∉ (formParty viableState).2 := by decide

/-- Claim C6 (amended): every successful add broadcasts (notify_all is
part of addPlayersToQueue), and the busy-completion step of a worker
broadcasts, but the withdraw operation performs no broadcast: neither
formParty nor the whole withdrawal critical section emits any event. -/
theorem broadcast_on_add_not_on_withdraw (s : DungeonState) (tanks healers dps : Int)
    (i : Nat) (dt : Int) :
    (addPlayersToQueue s tanks healers dps).2 = [Event.notifyAll] ∧
    (formParty s).2 = [] ∧
    (workerBeginParty s i).2 = [] ∧
    (workerFinishParty s i dt).2 = [Event.notifyAll] :=
  ⟨rfl, rfl, rfl, rfl⟩

/-- Counterexample for C7: at the concrete viable state
`mkDungeonManager 1 1 1 3`, the withdrawal step (which precedes the busy
phase) already changes the parties-served statistic, so it is not the
case that neither statistic is updated before the busy phase completes. -/
theorem parties_served_before_busy_counterexample :
    canFormParty (mkDungeonManager 1 1 1 3) = true ∧
    (workerBeginParty (mkDungeonManager 1 1 1 3) 0).1.parties_served ≠
      (mkDungeonManager 1 1 1 3).parties_served := by decide

/-- Claim C7 (amended): the cumulative busy time is recorded in the step
that completes the BUSY phase, in the same step that marks the worker
idle again and broadcasts, and that step leaves parties_served alone;
the parties-served count is instead incremented in the withdrawal step,
before the busy phase, which leaves total_time_served alone. -/
theorem busy_completion_records_time (s : DungeonState) (i : Nat) (dt : Int) :
    (workerFinishParty s i dt).1.total_time_served
        = s.total_time_served.set i (s.total_time_served.getD i 0 + dt) ∧
    (workerFinishParty s i dt).1.dungeon_active = s.dungeon_active.set i false ∧
    (workerFinishParty s i dt).1.parties_served = s.parties_served ∧
    (workerFinishParty s i dt).2 = [Event.notifyAll] ∧
    (workerBeginParty s i).1.parties_served
        = s.parties_served.set i (s.parties_served.getD i 0 + 1) ∧
    (workerBeginParty s i).1.total_time_served = s.total_time_served :=
  ⟨rfl, rfl, rfl, rfl, rfl, rfl⟩

/-- Claim C8: the producer loop stop test depends only on elapsed time
against the runtime budget (it reads nothing from the object state, in
particular not the shutdown flag), it stops exactly when elapsed reaches
the budget, and each tick before termination adds a total of between 1
and 3 units, each unit counted in exactly one category, through a single
addPlayersToQueue call (one broadcast event). -/
theorem producer_time_bounded_tick (s s1 : DungeonState) (elapsed budget : Int)
    (roles : List Nat)
    (hmin : 1 ≤ roles.length) (hmax : roles.length ≤ 3)
    (hroles : ∀ r ∈ roles, r ≤ 2) :
    producerShouldStop s elapsed budget = producerShouldStop s1 elapsed budget ∧
    (producerShouldStop s elapsed budget = true ↔ budget ≤ elapsed) ∧
    (rolesToCounts roles).1 + (rolesToCounts roles).2.1 + (rolesToCounts roles).2.2
        = (roles.length : Int) ∧
    1 ≤ (roles.length : Int) ∧ (roles.length : Int) ≤ 3 ∧
    (producerTick s roles).1.total_players_added
        = s.total_players_added + (roles.length : Int) ∧
    (producerTick s roles).2 = [Event.notifyAll] := by
  have hsum := rolesToCounts_sum roles hroles
  refine ⟨rfl, ?_, hsum, ?_, ?_, ?_, rfl⟩
  · simp [producerShouldStop, ge_iff_le]
  · exact_mod_cast hmin
  · exact_mod_cast hmax
  · have e : (producerTick s roles).1.total_players_added
        = s.total_players_added +
          ((rolesToCounts roles).1 + (rolesToCounts roles).2.1 + (rolesToCounts roles).2.2) := rfl
    rw [e, hsum]

/-- Witness for C8: roles (0,1,2) drawn on one tick, elapsed 30 of a
30-second budget, compared across a state and the same state with the
shutdown flag set. -/
theorem producer_time_bounded_tick_witness :
    producerShouldStop (mkDungeonManager 1 0 0 0) 30 30
        = producerShouldStop { mkDungeonManager 1 0 0 0 with shutdown := true } 30 30 ∧
    (producerShouldStop (mkDungeonManager 1 0 0 0) 30 30 = true ↔ (30 : Int) ≤ 30) ∧
    (rolesToCounts [0, 1, 2]).1 + (rolesToCounts [0, 1, 2]).2.1 + (rolesToCounts [0, 1, 2]).2.2
        = (([0, 1, 2] : List Nat).length : Int) ∧
    1 ≤ ((([0, 1, 2] : List Nat).length : Nat) : Int) ∧
    ((([0, 1, 2] : List Nat).length : Nat) : Int) ≤ 3 ∧
    (producerTick (mkDungeonManager 1 0 0 0) [0, 1, 2]).1.total_players_added
        = (mkDungeonManager 1 0 0 0).total_players_added + (([0, 1, 2] : List Nat).length : Int) ∧
    (producerTick (mkDungeonManager 1 0 0 0) [0, 1, 2]).2 = [Event.notifyAll] :=
  producer_time_bounded_tick (mkDungeonManager 1 0 0 0)
    { mkDungeonManager 1 0 0 0 with shutdown := true } 30 30 [0, 1, 2]
    (by decide) (by decide) (by decide)

/-- Counterexample for C9: worker 0 and the producer are distinct
concurrently-running loops, yet their draw sites read the same generator
instance (the single member gen), and neither holds the mutex at its
draw, so one generator is shared across loops without synchronization. -/
theorem shared_generator_counterexample :
    (workerTimeDrawSite 0).task ≠ producerCountDrawSite.task ∧
    (workerTimeDrawSite 0).source = producerCountDrawSite.source ∧
    (workerTimeDrawSite 0).mutexHeld = false ∧
    producerCountDrawSite.mutexHeld = false := by decide

/-- Claim C9 (amended): every random draw of every concurrent task reads
the single shared member generator, with the mutex not held at the draw:
all worker duration draws and both producer draws use one shared
unsynchronized source, not task-local sources. -/
theorem all_draws_share_member_generator (i j : Nat) :
    (workerTimeDrawSite i).source = GenId.memberGen ∧
    (workerTimeDrawSite i).mutexHeld = false ∧
    (workerTimeDrawSite i).source = (workerTimeDrawSite j).source ∧
    producerCountDrawSite.source = GenId.memberGen ∧
    producerCountDrawSite.mutexHeld = false ∧
    producerRoleDrawSite.source = GenId.memberGen ∧
    producerRoleDrawSite.mutexHeld = false :=
  ⟨rfl, rfl, rfl, rfl, rfl, rfl, rfl⟩

/-- Claim C10: formParty and addPlayersToQueue leave every per-worker
statistic and the shutdown flag unchanged; formParty also leaves
total_players_added unchanged; addPlayersToQueue also leaves
total_parties_formed unchanged and adds exactly the sum of its three
arguments to total_players_added. -/
theorem pool_ops_frame (s : DungeonState) (tanks healers dps : Int) :
    (formParty s).1.dungeon_active = s.dungeon_active ∧
    (formParty s).1.parties_served = s.parties_served ∧
    (formParty s).1.total_time_served = s.total_time_served ∧
    (formParty s).1.shutdown = s.shutdown ∧
    (formParty s).1.total_players_added = s.total_players_added ∧
    (addPlayersToQueue s tanks healers dps).1.dungeon_active = s.dungeon_active ∧
    (addPlayersToQueue s tanks healers dps).1.parties_served = s.parties_served ∧
    (addPlayersToQueue s tanks healers dps).1.total_time_served = s.total_time_served ∧
    (addPlayersToQueue s tanks healers dps).1.shutdown = s.shutdown ∧
    (addPlayersToQueue s tanks healers dps).1.total_parties_formed = s.total_parties_formed ∧
    (addPlayersToQueue s tanks healers dps).1.total_players_added
        = s.total_players_added + (tanks + healers + dps) :=
  ⟨rfl, rfl, rfl, rfl, rfl, rfl, rfl, rfl, rfl, rfl, rfl⟩

end DungeonManager
